import Mathlib

/-!
Verification of the Presto reference-query runner
(`velox/exec/fuzzer/PrestoQueryRunner.cpp`).

The development shallowly embeds the runner: the plan IR and typed
expressions become inductive types, the SQL compiler `toSql` becomes a
recursive function into `Except VError (Option String)` (`.error` models an
uncaught C++ exception, `.ok none` models the `std::nullopt` "unsupported"
outcome), and the HTTP protocol client becomes a pure function over a list
of scripted transport results, threading an explicit event trace (POST/GET
requests, page decodes, file writes) so that "performs no HTTP request" and
similar properties are statable.

Row data inside vectors is abstracted: a decoded page is represented by the
column metadata it was decoded with together with the raw page payload,
since none of the verified properties inspect individual row values.
-/

namespace PrestoQueryRunner

/-- Velox types, as far as the runner inspects them.  `JSON`, `IPADDRESS`
and `UUID` are logical types backed by primitive types (varchar resp.
hugeint), so `isPrimitiveType` holds for them; `IPPREFIX` is backed by a
row type, so it does not.  `ARRAY`/`MAP`/`ROW` are the complex types. -/
inductive VType where
  | BOOLEAN
  | TINYINT
  | SMALLINT
  | INTEGER
  | BIGINT
  | HUGEINT
  | REAL
  | DOUBLE
  | VARCHAR
  | VARBINARY
  | TIMESTAMP
  | UNKNOWN
  | INTERVAL_DAY_TIME
  | INTERVAL_YEAR_MONTH
  | JSON
  | IPADDRESS
  | IPPREFIXT
  | UUID
  | ARRAY (elem : VType)
  | MAP (key value : VType)
  | ROW (fields : List VType)

/-- Embeds `Type::isPrimitiveType()`: scalar (non-complex) types.  The row-backed
`IPPREFIX` logical type is not primitive. -/
def VType.isPrimitiveType : VType → Bool
  | .ARRAY _ => false
  | .MAP _ _ => false
  | .ROW _ => false
  | .IPPREFIXT => false
  | _ => true

/-- Embeds `Type::isTimestamp()`. -/
def VType.isTimestamp : VType → Bool
  | .TIMESTAMP => true
  | _ => false

/-- Embeds `Type::isIntervalDayTime()`. -/
def VType.isIntervalDayTime : VType → Bool
  | .INTERVAL_DAY_TIME => true
  | _ => false

/-- Embeds `isJsonType` from `JsonType.h`. -/
def isJsonType : VType → Bool
  | .JSON => true
  | _ => false

/-- Embeds `isIPAddressType` from `IPAddressType.h`. -/
def isIPAddressType : VType → Bool
  | .IPADDRESS => true
  | _ => false

/-- Embeds `isIPPrefixType` from `IPPrefixType.h`. -/
def isIPPrefixType : VType → Bool
  | .IPPREFIXT => true
  | _ => false

/-- Embeds `isUuidType` from `UuidType.h`. -/
def isUuidType : VType → Bool
  | .UUID => true
  | _ => false

/-- Typed expressions (`core::ITypedExpr` subclasses).  The runner's
projection compiler dispatches on exactly five subclasses; `lambda` stands
for every other expression kind (e.g. `core::LambdaTypedExpr`), which the
dispatch does not handle. -/
inductive TypedExpr where
  | fieldAccess (name : String) (ty : VType)
  | call (name : String) (inputs : List TypedExpr) (ty : VType)
  | cast (input : TypedExpr) (ty : VType)
  | concat (inputs : List TypedExpr) (ty : VType)
  | constant (ty : VType) (value : String)
  | lambda (ty : VType)

/-- Embeds `ITypedExpr::type()`. -/
def TypedExpr.typeOf : TypedExpr → VType
  | .fieldAccess _ ty => ty
  | .call _ _ ty => ty
  | .cast _ ty => ty
  | .concat _ ty => ty
  | .constant ty _ => ty
  | .lambda ty => ty

/-- Embeds `PrestoQueryRunner::isConstantExprSupported` (lines 430-449): a
constant expression is supported when its type is primitive and is none of
timestamp, JSON, interval day-time, IP-address, IP-prefix, UUID; every
non-constant expression is supported. -/
def isConstantExprSupported (expr : TypedExpr) : Bool :=
  match expr with
  | .constant ty _ =>
      ty.isPrimitiveType && !ty.isTimestamp && !isJsonType ty &&
        !ty.isIntervalDayTime && !isIPAddressType ty && !isIPPrefixType ty &&
        !isUuidType ty
  | _ => true

mutual

/-- Embeds `exec::TypeSignature`: a base type name with parameter signatures.
The parameter list is its own inductive so the recursion over signatures
is structural. -/
inductive TypeSig where
  | mk (base : String) (params : TypeSigList)

/-- A list of type signatures (the parameters of a signature). -/
inductive TypeSigList where
  | nil
  | cons (head : TypeSig) (tail : TypeSigList)

end

/-- Embeds `exec::FunctionSignature`, restricted to the parts `isSupported`
inspects: the argument type signatures and the return type signature. -/
structure FunctionSignature where
  argumentTypes : List TypeSig
  returnType : TypeSig

/-- Case-normalization used for the case-insensitive type-name match. -/
def strToLower (s : String) : String :=
  ⟨s.data.map Char.toLower⟩

mutual

/-- Whether a type signature mentions the given base type name,
case-insensitively, at any nesting depth. -/
def typeSigUses (name : String) : TypeSig → Bool
  | .mk base params =>
      strToLower base == strToLower name || typeSigParamsUses name params

/-- Lifts `typeSigUses` over the parameters of a signature. -/
def typeSigParamsUses (name : String) : TypeSigList → Bool
  | .nil => false
  | .cons t ts => typeSigUses name t || typeSigParamsUses name ts

end

/-- Lifts `typeSigUses` over a list of type signatures. -/
def typeSigListUses (name : String) : List TypeSig → Bool
  | [] => false
  | t :: ts => typeSigUses name t || typeSigListUses name ts

/-- Modelled from the spec: `usesTypeName` (declared in `FuzzerUtil.h`,
definition not part of the shown sources) reports whether any input type
name or the return type name of the signature matches the given type name,
case-insensitively, regardless of nesting depth. -/
def usesTypeName (s : FunctionSignature) (name : String) : Bool :=
  typeSigListUses name s.argumentTypes || typeSigUses name s.returnType

/-- Modelled from the spec: `usesInputTypeName` (declared in
`FuzzerUtil.h`, definition not part of the shown sources) reports whether
any input (argument) type name of the signature matches the given type
name, case-insensitively, regardless of nesting depth; the return type is
not examined. -/
def usesInputTypeName (s : FunctionSignature) (name : String) : Bool :=
  typeSigListUses name s.argumentTypes

/-- Embeds `PrestoQueryRunner::isSupported` (lines 451-470): rejects signatures
using bingtile, interval year to month, hugeint, hyperloglog or tdigest
anywhere (inputs or return type), and signatures using json, ipaddress,
ipprefix or uuid among the input types. -/
def isSupported (signature : FunctionSignature) : Bool :=
  !(usesTypeName signature "bingtile" ||
    usesTypeName signature "interval year to month" ||
    usesTypeName signature "hugeint" ||
    usesTypeName signature "hyperloglog" ||
    usesTypeName signature "tdigest" ||
    usesInputTypeName signature "json" ||
    usesInputTypeName signature "ipaddress" ||
    usesInputTypeName signature "ipprefix" ||
    usesInputTypeName signature "uuid")

/-- C++ exceptions, separated into the classes the runner's catch clauses
distinguish: `runtimeError` models `VeloxRuntimeError` (thrown by
`VELOX_CHECK`/`VELOX_NYI`), `userError` models `VeloxUserError` (thrown by
`VELOX_FAIL`), `other` models every remaining exception type (e.g.
`std::out_of_range` from `std::map::at`). -/
inductive VError where
  | runtimeError (message : String)
  | userError (message : String)
  | other (message : String)
deriving DecidableEq

/-- Embeds `VELOX_NYI()`: a fatal not-implemented invariant failure, which throws
`VeloxRuntimeError` (never caught inside the compiler). -/
def nyiError : VError := .runtimeError "not implemented"

/-- Embeds `folly::join(", ", parts)` combined with the `appendComma` helper: the
comma-separated rendering used throughout the SQL builder. -/
def joinComma : List String → String
  | [] => ""
  | [s] => s
  | s :: rest => s ++ ", " ++ joinComma rest

mutual

/-- Modelled from the spec: `toTypeSql` (from `PrestoSql.h`, definition not
part of the shown sources) renders a type as Presto SQL type text. -/
def toTypeSql : VType → String
  | .BOOLEAN => "BOOLEAN"
  | .TINYINT => "TINYINT"
  | .SMALLINT => "SMALLINT"
  | .INTEGER => "INTEGER"
  | .BIGINT => "BIGINT"
  | .HUGEINT => "HUGEINT"
  | .REAL => "REAL"
  | .DOUBLE => "DOUBLE"
  | .VARCHAR => "VARCHAR"
  | .VARBINARY => "VARBINARY"
  | .TIMESTAMP => "TIMESTAMP"
  | .UNKNOWN => "UNKNOWN"
  | .INTERVAL_DAY_TIME => "INTERVAL DAY TO SECOND"
  | .INTERVAL_YEAR_MONTH => "INTERVAL YEAR TO MONTH"
  | .JSON => "JSON"
  | .IPADDRESS => "IPADDRESS"
  | .IPPREFIXT => "IPPREFIX"
  | .UUID => "UUID"
  | .ARRAY elem => "ARRAY(" ++ toTypeSql elem ++ ")"
  | .MAP k v => "MAP(" ++ toTypeSql k ++ ", " ++ toTypeSql v ++ ")"
  | .ROW fields => "ROW(" ++ joinComma (toTypeSqlList fields) ++ ")"

/-- Lifts `toTypeSql` over a list of types. -/
def toTypeSqlList : List VType → List String
  | [] => []
  | t :: ts => toTypeSql t :: toTypeSqlList ts

end

/-- Modelled from the spec: `toConstantSql` (from `PrestoSql.h`, definition
not part of the shown sources) renders a constant as a literal whose
textual form is type-dependent: quoted strings, unquoted numerics. -/
def toConstantSql (ty : VType) (value : String) : String :=
  match ty with
  | .VARCHAR => "'" ++ value ++ "'"
  | _ => value

mutual

/-- Modelled from the spec: the expression compiler shared by `toCallSql`,
`toCastSql` and `toConcatSql` (from `PrestoSql.h`, definitions not part of
the shown sources): FieldAccess becomes a bare identifier, Call becomes
`name(arg, arg, ...)`, Cast becomes `CAST(x AS type)`, Concat becomes a
dialect concatenation call, Constant becomes a type-dependent literal.  The
spec gives no SQL form to any other expression kind; those are modelled as
the fatal not-implemented failure the source uses for unhandled kinds. -/
def exprSql : TypedExpr → Except VError String
  | .fieldAccess n _ => .ok n
  | .call n inputs _ =>
      match exprListSql inputs with
      | .error e => .error e
      | .ok args => .ok (n ++ "(" ++ joinComma args ++ ")")
  | .cast input ty =>
      match exprSql input with
      | .error e => .error e
      | .ok s => .ok ("CAST(" ++ s ++ " AS " ++ toTypeSql ty ++ ")")
  | .concat inputs _ =>
      match exprListSql inputs with
      | .error e => .error e
      | .ok args => .ok ("concat(" ++ joinComma args ++ ")")
  | .constant ty v => .ok (toConstantSql ty v)
  | .lambda _ => .error nyiError

/-- Lifts `exprSql` over a list of expressions, failing on the first failure. -/
def exprListSql : List TypedExpr → Except VError (List String)
  | [] => .ok []
  | e :: es =>
      match exprSql e with
      | .error err => .error err
      | .ok s =>
          match exprListSql es with
          | .error err => .error err
          | .ok ss => .ok (s :: ss)

end

/-- A `core::CallTypedExpr`: function name, input expressions, result
type. -/
structure CallExpr where
  name : String
  inputs : List TypedExpr
  ty : VType

/-- One entry of `AggregationNode::aggregates()`. -/
structure Aggregate where
  call : CallExpr
  sortingKeys : List String
  sortingOrders : List String
  distinct : Bool
  mask : Option String

/-- One entry of `WindowNode::windowFunctions()`. -/
structure WindowFn where
  functionCall : CallExpr
  ignoreNulls : Bool

/-- A `HiveColumnHandle` as read by the TableWrite branch: column name and
partition-key flag. -/
structure HiveColumn where
  name : String
  isPartitionKey : Bool

/-- One sort column of a `HiveBucketProperty`. -/
structure SortColumn where
  sortColumn : String
  isAscending : Bool

/-- Embeds `HiveBucketProperty`: bucket count, bucket columns, sort columns. -/
structure BucketProperty where
  bucketCount : Nat
  bucketedBy : List String
  sortedBy : List SortColumn

/-- Embeds `core::AggregationNode::Step`. -/
inductive AggStep where
  | kSingle
  | kPartialStep
  | kIntermediate
  | kFinal

/-- A row type: column names with their types, in declaration order. -/
abbrev RowTypeM := List (String × VType)

/-- Plan nodes (`core::PlanNode` subclasses): exactly the ten kinds the
compiler's dispatch handles, plus `unhandled`, which stands for every other
plan-node kind (e.g. Filter, OrderBy, Limit) and carries only its declared
output type. -/
inductive PlanNode where
  | values (vid : String) (rowType : RowTypeM)
  | tableScan (tableName : String) (rowType : RowTypeM)
  | project (names : List String) (projections : List TypedExpr) (source : PlanNode)
  | aggregation (step : AggStep) (groupingKeys : List String)
      (aggregates : List Aggregate) (aggregateNames : List String) (source : PlanNode)
  | window (nodeId : String) (windowColumnNames : List String) (functions : List WindowFn)
      (partitionKeys : List String) (sortingKeys : List String) (sortingOrders : List String)
      (source : PlanNode)
  | rowNumber (partitionKeys : List String) (rowNumberColumnName : Option String)
      (source : PlanNode)
  | topNRowNumber (partitionKeys : List String) (sortingKeys : List String)
      (sortingOrders : List String) (rowNumberColumnName : Option String) (limit : Nat)
      (source : PlanNode)
  | tableWrite (columnNames : List String) (inputColumns : List HiveColumn)
      (isPartitioned : Bool) (bucketProperty : Option BucketProperty) (source : PlanNode)
  | hashJoin (condition : String) (outputColumns : RowTypeM) (left right : PlanNode)
  | nestedLoopJoin (condition : String) (outputColumns : RowTypeM) (left right : PlanNode)
  | unhandled (kind : String) (rowType : RowTypeM)

/-- Looks up a column's type in a row type (first match), `UNKNOWN` when
absent. -/
def lookupType (rt : RowTypeM) (name : String) : VType :=
  ((rt.find? fun c => c.1 == name).map Prod.snd).getD .UNKNOWN

/-- Modelled from the spec: `PlanNode::outputType()` (a plan-IR accessor,
an external collaborator of the shown sources).  RowNumber and
TopNRowNumber append their optional row-number column (of type BIGINT) to
the source's output; a `none` row-number column name means the node does
not generate the column. -/
def outputTypeOf : PlanNode → RowTypeM
  | .values _ rt => rt
  | .tableScan _ rt => rt
  | .project names projections _ => names.zip (projections.map TypedExpr.typeOf)
  | .aggregation _ gk aggs aggNames src =>
      (gk.map fun k => (k, lookupType (outputTypeOf src) k)) ++
        aggNames.zip (aggs.map fun a => a.call.ty)
  | .window _ wNames fns _ _ _ src =>
      outputTypeOf src ++ wNames.zip (fns.map fun f => f.functionCall.ty)
  | .rowNumber _ rn src =>
      outputTypeOf src ++ (match rn with | some n => [(n, .BIGINT)] | none => [])
  | .topNRowNumber _ _ _ rn _ src =>
      outputTypeOf src ++ (match rn with | some n => [(n, .BIGINT)] | none => [])
  | .tableWrite _ _ _ _ _ => []
  | .hashJoin _ out _ _ => out
  | .nestedLoopJoin _ out _ _ => out
  | .unhandled _ rt => rt

/-- The window-frame side table of `QueryRunnerContext`: plan-node id to
the frame text of each window function of that node, in function order. -/
abbrev FrameMap := List (String × List String)

/-- Embeds `std::map::at` by key: throws `std::out_of_range` on a miss (not a
Velox error, so it is modelled as `VError.other`). -/
def mapAt {α : Type} (m : List (String × α)) (key : String) : Except VError α :=
  match m.find? fun kv => kv.1 == key with
  | some kv => .ok kv.2
  | none => .error (.other "out of range")

/-- Embeds `std::vector::at` by index: throws `std::out_of_range` on a miss. -/
def listAt {α : Type} (l : List α) (i : Nat) : Except VError α :=
  match l.get? i with
  | some x => .ok x
  | none => .error (.other "out of range")

/-- Embeds `toWindowCallSql` (lines 221-232): `name(inputs...)`, with
` IGNORE NULLS` appended when requested. -/
def toWindowCallSql (call : CallExpr) (ignoreNulls : Bool) : Except VError String :=
  match exprListSql call.inputs with
  | .error e => .error e
  | .ok args =>
      .ok (call.name ++ "(" ++ joinComma args ++ ")" ++
        (if ignoreNulls then " IGNORE NULLS" else ""))

/-- Modelled from the spec: `toAggregateCallSql` (from `PrestoSql.h`,
definition not part of the shown sources) folds the distinct flag and the
optional sort keys/orders into the call's argument list per dialect
syntax. -/
def toAggregateCallSql (call : CallExpr) (sortingKeys sortingOrders : List String)
    (distinct : Bool) : Except VError String :=
  match exprListSql call.inputs with
  | .error e => .error e
  | .ok args =>
      .ok (call.name ++ "(" ++ (if distinct then "distinct " else "") ++ joinComma args ++
        (if sortingKeys.isEmpty then ""
         else " ORDER BY " ++
           joinComma ((sortingKeys.zip sortingOrders).map fun p => p.1 ++ " " ++ p.2)) ++ ")")

/-- The aggregate loop of the Aggregation branch (lines 298-311): renders
each aggregate call, its optional `filter (where mask)` clause and its
output alias. -/
def aggregatesSql : List (Aggregate × String) → Except VError (List String)
  | [] => .ok []
  | (agg, aggName) :: rest =>
      match toAggregateCallSql agg.call agg.sortingKeys agg.sortingOrders agg.distinct with
      | .error e => .error e
      | .ok s =>
          let s := s ++
            (match agg.mask with
             | some m => " filter (where " ++ m ++ ")"
             | none => "") ++ " as " ++ aggName
          match aggregatesSql rest with
          | .error e => .error e
          | .ok ss => .ok (s :: ss)

/-- The window-function loop of the Window branch (lines 389-418): each
function call followed by its `OVER (...)` clause; the frame text for
function `i` is looked up at index `i` of the node's frame list. -/
def windowFnsSql (partitionKeys sortingKeys sortingOrders frames : List String) :
    List WindowFn → Nat → Except VError (List String)
  | [], _ => .ok []
  | f :: fs, i =>
      match toWindowCallSql f.functionCall f.ignoreNulls with
      | .error e => .error e
      | .ok callSql =>
          match listAt frames i with
          | .error e => .error e
          | .ok frame =>
              let overBody :=
                (if partitionKeys.isEmpty then ""
                 else "PARTITION BY " ++ joinComma partitionKeys) ++
                (if sortingKeys.isEmpty then ""
                 else " ORDER BY " ++
                   joinComma ((sortingKeys.zip sortingOrders).map fun p => p.1 ++ " " ++ p.2))
              match windowFnsSql partitionKeys sortingKeys sortingOrders frames fs (i + 1) with
              | .error e => .error e
              | .ok ss => .ok ((callSql ++ " OVER (" ++ overBody ++ " " ++ frame ++ ")") :: ss)

/-- The projection dispatch of the Project branch (lines 339-363): the five
handled expression kinds compile to SQL text; anything else hits the
`VELOX_NYI()` arm (line 362). -/
def projectionSql (e : TypedExpr) : Except VError String
  := match e with
  | .fieldAccess n _ => .ok n
  | .call _ _ _ => exprSql e
  | .cast _ _ => exprSql e
  | .concat _ _ => exprSql e
  | .constant ty v => .ok (toConstantSql ty v)
  | .lambda _ => .error nyiError

/-- Whether the projection dispatch has a case for this expression kind. -/
def isProjectionKindHandled : TypedExpr → Bool
  | .lambda _ => false
  | _ => true

/-- The projection loop of the Project branch (lines 337-366): each
projection compiled and aliased with its output name. -/
def projectListSql : List (String × TypedExpr) → Except VError (List String)
  | [] => .ok []
  | (n, e) :: rest =>
      match projectionSql e with
      | .error err => .error err
      | .ok s =>
          match projectListSql rest with
          | .error err => .error err
          | .ok ss => .ok ((s ++ " as " ++ n) :: ss)

/-- Embeds `PrestoQueryRunner::toSql` (lines 164-217 dispatch plus the per-kind
overloads): compiles a plan to Presto SQL.  `.ok none` is the
"unsupported" outcome (`std::nullopt`); `.error` is an uncaught C++
exception.  `isSupportedDwrfType` is the predicate of that name from
`FuzzerUtil.h` (definition not part of the shown sources), passed as a
parameter; `windowFrames` is the `QueryRunnerContext` side table.  The Join,
Values and TableScan branches are modelled from the spec ("straightforward
table-reference compilation"), their definitions not being part of the
shown sources. -/
def toSql (isSupportedDwrfType : RowTypeM → Bool) (windowFrames : FrameMap) :
    PlanNode → Except VError (Option String)
  | .project names projections source =>
      match toSql isSupportedDwrfType windowFrames source with
      | .error e => .error e
      | .ok none => .ok none
      | .ok (some sourceSql) =>
          match projectListSql (names.zip projections) with
          | .error e => .error e
          | .ok parts =>
              .ok (some ("SELECT " ++ joinComma parts ++ " FROM (" ++ sourceSql ++ ")"))
  | .window nodeId _ fns pk sk so source =>
      if !isSupportedDwrfType (outputTypeOf source) then .ok none
      else
        match mapAt windowFrames nodeId with
        | .error e => .error e
        | .ok frames =>
            match windowFnsSql pk sk so frames fns 0 with
            | .error e => .error e
            | .ok fnParts =>
                match toSql isSupportedDwrfType windowFrames source with
                | .error e => .error e
                | .ok none => .ok none
                | .ok (some s) =>
                    .ok (some ("SELECT " ++ joinComma ((outputTypeOf source).map Prod.fst) ++
                      ", " ++ joinComma fnParts ++ " FROM " ++ s))
  | .aggregation step gk aggs aggNames source =>
      match step with
      | .kSingle =>
          if !isSupportedDwrfType (outputTypeOf source) then .ok none
          else
            match aggregatesSql (aggs.zip aggNames) with
            | .error e => .error e
            | .ok aggParts =>
                match toSql isSupportedDwrfType windowFrames source with
                | .error e => .error e
                | .ok none => .ok none
                | .ok (some s) =>
                    let head := "SELECT " ++ joinComma gk
                    let head :=
                      if aggParts.isEmpty then head
                      else head ++ (if gk.isEmpty then "" else ", ") ++ joinComma aggParts
                    .ok (some (head ++ " FROM " ++ s ++
                      (if gk.isEmpty then "" else " GROUP BY " ++ joinComma gk)))
      | _ => .error (.runtimeError "aggregation step is not single")
  | .rowNumber pk _ source =>
      if !isSupportedDwrfType (outputTypeOf source) then .ok none
      else
        match toSql isSupportedDwrfType windowFrames source with
        | .error e => .error e
        | .ok none => .ok none
        | .ok (some s) =>
            .ok (some ("SELECT " ++ joinComma ((outputTypeOf source).map Prod.fst) ++
              ", row_number() OVER (" ++
              (if pk.isEmpty then "" else "partition by " ++ joinComma pk) ++
              ") as row_number FROM " ++ s))
  | .topNRowNumber pk sk so rn limit source =>
      if !isSupportedDwrfType (outputTypeOf source) then .ok none
      else
        let rowNumberColumnName :=
          match rn with
          | some _ =>
              (((outputTypeOf (PlanNode.topNRowNumber pk sk so rn limit source)).map
                  Prod.fst).getLast?).getD ""
          | none => "row_number"
        match toSql isSupportedDwrfType windowFrames source with
        | .error e => .error e
        | .ok none => .ok none
        | .ok (some s) =>
            .ok (some ("SELECT * FROM (SELECT " ++
              joinComma ((outputTypeOf source).map Prod.fst) ++
              ", row_number() OVER (" ++
              (if pk.isEmpty then "" else "partition by " ++ joinComma pk) ++
              (if sk.isEmpty then ""
               else " ORDER BY " ++
                 joinComma ((sk.zip so).map fun p => p.1 ++ " " ++ p.2)) ++
              ") as " ++ rowNumberColumnName ++ " FROM " ++ s ++ ")  where " ++
              rowNumberColumnName ++ " <= " ++ Nat.repr limit))
  | .tableWrite columnNames inputColumns isPartitioned bucketProperty source =>
      let partitionKeys :=
        ((inputColumns.take columnNames.length).filter fun c => c.isPartitionKey).map
          fun c => c.name
      let withBody :=
        if isPartitioned then
          " PARTITIONED_BY = ARRAY[" ++
            joinComma (partitionKeys.map fun k => "'" ++ k ++ "'") ++ "], " ++
            (match bucketProperty with
             | none => ""
             | some bp =>
                 " BUCKET_COUNT = " ++ Nat.repr bp.bucketCount ++ ", BUCKETED_BY = ARRAY[" ++
                   joinComma (bp.bucketedBy.map fun c => "'" ++ c ++ "'") ++ "], " ++
                   (if bp.sortedBy.isEmpty then ""
                    else " SORTED_BY = ARRAY[" ++
                      joinComma (bp.sortedBy.map fun sc =>
                        "'" ++ sc.sortColumn ++ " " ++
                          (if sc.isAscending then "ASC" else "DESC") ++ "'") ++ "], "))
        else ""
      match toSql isSupportedDwrfType windowFrames source with
      | .error e => .error e
      | .ok none => .ok none
      | .ok (some s) =>
          .ok (some ("CREATE TABLE tmp_write WITH (" ++ withBody ++
            "FORMAT = 'ORC')  AS SELECT * FROM " ++ s))
  | .hashJoin condition _ left right =>
      match toSql isSupportedDwrfType windowFrames left with
      | .error e => .error e
      | .ok none => .ok none
      | .ok (some l) =>
          match toSql isSupportedDwrfType windowFrames right with
          | .error e => .error e
          | .ok none => .ok none
          | .ok (some r) =>
              .ok (some ("SELECT * FROM (" ++ l ++ ") JOIN (" ++ r ++ ") ON " ++ condition))
  | .nestedLoopJoin condition _ left right =>
      match toSql isSupportedDwrfType windowFrames left with
      | .error e => .error e
      | .ok none => .ok none
      | .ok (some l) =>
          match toSql isSupportedDwrfType windowFrames right with
          | .error e => .error e
          | .ok none => .ok none
          | .ok (some r) =>
              .ok (some ("SELECT * FROM (" ++ l ++ ") CROSS JOIN (" ++ r ++ ") ON " ++
                condition))
  | .values vid _ => .ok (some ("t_" ++ vid))
  | .tableScan tableName _ => .ok (some tableName)
  | .unhandled _ _ => .error nyiError

/-- The `error` field of a server response: engine error code and
message. -/
structure PrestoError where
  errorCode : Int
  message : String
deriving DecidableEq

/-- A parsed `ServerResponse` (lines 88-146): the JSON fields the client
reads.  `nextUri = none` models the JSON key being absent
(`count("nextUri") == 0`); likewise for `error` and `binaryData`.  Columns
carry name and textual type. -/
structure ServerResponse where
  id : String
  error : Option PrestoError
  nextUri : Option String
  columns : List (String × String)
  binaryData : Option (List String)
deriving DecidableEq

/-- Embeds `ServerResponse::queryCompleted` (lines 110-112): no `nextUri` key. -/
def queryCompleted (r : ServerResponse) : Bool :=
  r.nextUri.isNone

/-- Embeds `ServerResponse::throwIfFailed` (lines 93-104): an `error` field makes
the call fail via `VELOX_FAIL` (a `VeloxUserError`) with a message
embedding the engine's error code and message. -/
def throwIfFailed (r : ServerResponse) : Except VError Unit :=
  match r.error with
  | none => .ok ()
  | some err =>
      .error (.userError ("Presto query failed: " ++ toString err.errorCode ++ " " ++
        err.message))

/-- A decoded result page: the column metadata the page was decoded with,
together with the page payload.  The base64 decode and Presto-page
deserialization of `queryResults`/`deserialize` (lines 77-86, 118-142) are
pure and per-entry; their byte-level output is abstracted into `page`. -/
structure RowVec where
  columns : List (String × String)
  page : String
deriving DecidableEq

/-- Embeds `ServerResponse::queryResults` (lines 118-142): no `binaryData` key
yields no vectors; otherwise each entry is decoded into one vector using
the response's column metadata, in order. -/
def queryResults (r : ServerResponse) : List RowVec :=
  match r.binaryData with
  | none => []
  | some datas => datas.map fun d => ⟨r.columns, d⟩

/-- An observable effect of the runner: an HTTP POST (query submission), an
HTTP GET (continuation), the decode of one `binaryData` entry, or a file
write by the table materializer. -/
inductive Event where
  | post (sql session : String)
  | get (uri : String)
  | decode (entry : String)
  | write (path : String)
deriving DecidableEq

/-- The decode events `queryResults` performs on a response, in order. -/
def decodeEvents (r : ServerResponse) : List Event :=
  match r.binaryData with
  | none => []
  | some datas => datas.map Event.decode

/-- The outcome of one HTTP round trip, as scripted by a test: a `200`
response with a parsed body, or a transport failure (non-200 status or no
connection) carrying the transport error message that `VELOX_CHECK_EQ`
embeds. -/
inductive HttpResult where
  | ok (body : ServerResponse)
  | fail (message : String)
deriving DecidableEq

/-- The configured coordinator URI (constructor argument
`coordinatorUri_`). -/
def coordinatorUri : String := "http://127.0.0.1:8080"

/-- The statement-submission endpoint used by `startQuery` (line 759). -/
def statementUri : String := coordinatorUri ++ "/v1/statement?binaryResults=true"

/-- Whether `e` is a GET (continuation) event. -/
def isGetEvent : Event → Bool
  | .get _ => true
  | _ => false

/-- Whether `e` is a page-decode event. -/
def isDecodeEvent : Event → Bool
  | .decode _ => true
  | _ => false

/-- Number of continuation (GET) requests in a trace. -/
def countGets (log : List Event) : Nat :=
  (log.filter isGetEvent).length

/-- Number of page decodes in a trace. -/
def countDecodes (log : List Event) : Nat :=
  (log.filter isDecodeEvent).length

/-- The poll loop of `execute` (lines 740-751), driven by the scripted
transport results: decode the current response's pages, stop when it has no
`nextUri`, otherwise GET the `nextUri` (consuming the next scripted
result), fail the whole call on a transport failure or an `error`-bearing
response (the `throwIfFailed` at line 750 runs before the next response's
pages are decoded), and continue otherwise.  Returns the call result, the
unconsumed transport results, and the event trace. -/
def pollLoop (net : List HttpResult) (resp : ServerResponse) (acc : List RowVec)
    (log : List Event) :
    Except VError (List RowVec) × List HttpResult × List Event :=
  let acc := acc ++ queryResults resp
  let log := log ++ decodeEvents resp
  if queryCompleted resp then (.ok acc, net, log)
  else
    let uri := resp.nextUri.getD ""
    let log := log ++ [Event.get uri]
    match net with
    | [] => (.error (.other "no server response"), [], log)
    | .fail msg :: rest =>
        (.error (.runtimeError ("GET from " ++ uri ++ " failed: " ++ msg)), rest, log)
    | .ok body :: rest =>
        match throwIfFailed body with
        | .error e => (.error e, rest, log)
        | .ok _ => pollLoop rest body acc log
termination_by net.length
decreasing_by simp [List.length_cons]

/-- Embeds `PrestoQueryRunner::execute(sql, sessionProperty)` (lines 732-754):
POST the statement (`startQuery`, consuming the first scripted result; a
transport failure becomes the `VELOX_CHECK_EQ` runtime error of line 770),
fail on an `error`-bearing first response before decoding anything from it,
then run the poll loop. -/
def execute (sql session : String) (net : List HttpResult) (log : List Event) :
    Except VError (List RowVec) × List HttpResult × List Event :=
  let log := log ++ [Event.post sql session]
  match net with
  | [] => (.error (.other "no server response"), [], log)
  | .fail msg :: rest =>
      (.error (.runtimeError ("POST to " ++ statementUri ++ " failed: " ++ msg)), rest, log)
  | .ok body :: rest =>
      match throwIfFailed body with
      | .error e => (.error e, rest, log)
      | .ok _ => pollLoop rest body [] log

/-- Sequencing for the effectful fragment: stop at the first failure,
keeping the transport state and trace at the failure point (C++ exceptions
unwind past effects that already happened). -/
def andThenE {α β : Type}
    (r : Except VError α × List HttpResult × List Event)
    (f : α → List HttpResult → List Event →
      Except VError β × List HttpResult × List Event) :
    Except VError β × List HttpResult × List Event :=
  match r with
  | (.error e, net, log) => (.error e, net, log)
  | (.ok a, net, log) => f a net log

/-- Modelled from the spec: `extractSingleValue` (from
`QueryAssertions.h`, definition not part of the shown sources) reads the
single scalar value of a single-vector result; with row payloads
abstracted, the value is represented by the unique vector's payload. -/
def extractSingleValue : List RowVec → Except VError String
  | [r] => .ok r.page
  | _ => .error (.other "expected a single value")

/-- Embeds `fs::path::parent_path()`: the path with its last component removed. -/
def parentPath (p : String) : String :=
  ⟨((p.data.reverse.dropWhile fun c => c != '/').drop 1).reverse⟩

/-- Embeds `std::string::substr(n)`: drop the first `n` characters. -/
def strDrop (s : String) (n : Nat) : String :=
  ⟨s.data.drop n⟩

/-- The `cast(null as type)` list of `createTable` (lines 650-655). -/
def nullValuesSql (rt : RowTypeM) : String :=
  joinComma (rt.map fun c => "cast(null as " ++ toTypeSql c.2 ++ ")")

/-- Embeds `PrestoQueryRunner::createTable` (lines 646-675): drop any existing
table, create it DWRF-backed with one all-null row, ask Presto for the
table's location via the `"$path"` pseudo-column, delete the all-null row,
and return the table directory (parent path of the returned file path). -/
def createTable (name : String) (rt : RowTypeM) (net : List HttpResult)
    (log : List Event) : Except VError String × List HttpResult × List Event :=
  andThenE (execute ("DROP TABLE IF EXISTS " ++ name) "" net log) fun _ net log =>
  andThenE (execute ("CREATE TABLE " ++ name ++ "(" ++
      joinComma (rt.map Prod.fst) ++ ") WITH (format = 'DWRF') AS SELECT " ++
      nullValuesSql rt) "" net log) fun _ net log =>
  andThenE (execute ("SELECT \x22$path\x22 FROM " ++ name) "" net log) fun results net log =>
  match extractSingleValue results with
  | .error e => (.error e, net, log)
  | .ok filePath =>
      andThenE (execute ("DELETE FROM " ++ name) "" net log) fun _ net log =>
      (.ok (parentPath filePath), net, log)

/-- Table-map merge keeping the first binding of each name (mirrors the
keyed `unordered_map`). -/
def mergeTables (a b : List (String × RowTypeM)) : List (String × RowTypeM) :=
  a ++ b.filter fun t => !(a.any fun x => x.1 == t.1)

/-- Modelled from the spec: `getAllTables` (from `FuzzerUtil.h`, definition
not part of the shown sources) collects every leaf table referenced by the
plan, keyed by table name; a Values leaf is the table its compiled
table-reference names. -/
def getAllTables : PlanNode → List (String × RowTypeM)
  | .values vid rt => [("t_" ++ vid, rt)]
  | .tableScan name rt => [(name, rt)]
  | .project _ _ s => getAllTables s
  | .aggregation _ _ _ _ s => getAllTables s
  | .window _ _ _ _ _ _ s => getAllTables s
  | .rowNumber _ _ s => getAllTables s
  | .topNRowNumber _ _ _ _ _ s => getAllTables s
  | .tableWrite _ _ _ _ s => getAllTables s
  | .hashJoin _ _ l r => mergeTables (getAllTables l) (getAllTables r)
  | .nestedLoopJoin _ _ l r => mergeTables (getAllTables l) (getAllTables r)
  | .unhandled _ _ => []

/-- The zero-column fixup of `executeAndReturnVector` (lines 685-691): an
input with an empty row type is replaced by `makeNullRows` output, a
single dummy column named `<tableName>x` (`makeNullRows` is from
`FuzzerUtil.h`; its column type is abstracted as UNKNOWN). -/
def fixEmptyTable (t : String × RowTypeM) : String × RowTypeM :=
  if t.2.isEmpty then (t.1, [(t.1 ++ "x", VType.UNKNOWN)]) else t

/-- Materialize one table (lines 694-704): `createTable`, then write the
fuzzer-generated data to `<tableDirectory>/<tableName>.dwrf`, with the
leading `file:` scheme prefix stripped (`substr(strlen("file:"))`). -/
def materializeOne (name : String) (rt : RowTypeM) (net : List HttpResult)
    (log : List Event) : Except VError Unit × List HttpResult × List Event :=
  andThenE (createTable name rt net log) fun dir net log =>
    let filePath := strDrop (dir ++ "/" ++ name ++ ".dwrf") 5
    (.ok (), net, log ++ [Event.write filePath])

/-- Materialize every collected table in order. -/
def materializeList : List (String × RowTypeM) → List HttpResult → List Event →
    Except VError Unit × List HttpResult × List Event
  | [], net, log => (.ok (), net, log)
  | t :: ts, net, log =>
      andThenE (materializeOne t.1 t.2 net log) fun _ net log =>
        materializeList ts net log

/-- The try-block body of `executeAndReturnVector` (lines 682-707): collect
the plan's input tables, apply the zero-column fixup, materialize each
table, then run the compiled SQL. -/
def runBody (plan : PlanNode) (sql : String) (net : List HttpResult) :
    Except VError (List RowVec) × List HttpResult × List Event :=
  andThenE (materializeList ((getAllTables plan).map fixEmptyTable) net []) fun _ net log =>
    execute sql "" net log

/-- Embeds `ReferenceQueryErrorCode`. -/
inductive ReferenceQueryErrorCode where
  | kSuccess
  | kReferenceQueryFail
  | kReferenceQueryUnsupported
deriving DecidableEq

/-- Substring containment over the character list (models
`std::string::find(pat) != npos`). -/
def charListHasSub (pat : List Char) : List Char → Bool
  | [] => pat.isEmpty
  | c :: rest => pat.isPrefixOf (c :: rest) || charListHasSub pat rest

/-- Models `msg.find(pat) != npos` for strings. -/
def strContains (s pat : String) : Bool :=
  charListHasSub pat.data s.data

/-- The rethrow condition of the catch clause at lines 708-712: a
`VeloxRuntimeError` whose message contains the connection-failure
substring.  Any other exception falls into the downgrade path. -/
def isConnectErr : VError → Bool
  | .runtimeError msg => strContains msg "Couldn't connect to server"
  | _ => false

/-- Embeds `PrestoQueryRunner::executeAndReturnVector` (lines 677-726): compile
the plan (outside the try block, so compiler exceptions propagate); on the
unsupported outcome return `(none, kReferenceQueryUnsupported)` with no
effects; otherwise run the body and classify its exceptions: a runtime
error containing "Couldn't connect to server" is rethrown, everything else
is downgraded to `(none, kReferenceQueryFail)`. -/
def executeAndReturnVector (isSupportedDwrfType : RowTypeM → Bool)
    (windowFrames : FrameMap) (plan : PlanNode) (net : List HttpResult) :
    Except VError (Option (List RowVec) × ReferenceQueryErrorCode) ×
      List HttpResult × List Event :=
  match toSql isSupportedDwrfType windowFrames plan with
  | .error e => (.error e, net, [])
  | .ok none => (.ok (none, .kReferenceQueryUnsupported), net, [])
  | .ok (some sql) =>
      match runBody plan sql net with
      | (.ok vecs, net, log) => (.ok (some vecs, .kSuccess), net, log)
      | (.error e, net, log) =>
          if isConnectErr e then (.error e, net, log)
          else (.ok (none, .kReferenceQueryFail), net, log)

/-- Modelled from the spec: `exec::test::materialize` (from
`QueryAssertions.h`, definition not part of the shown sources) converts the
result vectors into a multiset of rows; with row payloads abstracted, the
multiset of the vectors themselves represents it. -/
def materialize (vecs : List RowVec) : Multiset RowVec :=
  (vecs : Multiset RowVec)

/-- Embeds `PrestoQueryRunner::execute(plan)` (lines 631-644): call
`executeAndReturnVector`; when its vector result is present, return its
materialization with the same error code, otherwise propagate `(none,
code)` unchanged. -/
def executePlan (isSupportedDwrfType : RowTypeM → Bool) (windowFrames : FrameMap)
    (plan : PlanNode) (net : List HttpResult) :
    Except VError (Option (Multiset RowVec) × ReferenceQueryErrorCode) ×
      List HttpResult × List Event :=
  match executeAndReturnVector isSupportedDwrfType windowFrames plan net with
  | (.ok (some vecs, code), net, log) => (.ok (some (materialize vecs), code), net, log)
  | (.ok (none, code), net, log) => (.ok (none, code), net, log)
  | (.error e, net, log) => (.error e, net, log)

/-- A plan whose compilation is unsupported (the DWRF-type gate of the
Aggregation branch rejects the source row type). -/
def c1Plan : PlanNode :=
  .aggregation .kSingle [] [] [] (.values "1" [("c0", VType.INTEGER)])

/-- A one-table plan for the C2 witness. -/
def c2Plan : PlanNode := .values "1" [("c0", VType.INTEGER)]

/-- A scripted transport in which the very first HTTP request cannot reach
the server. -/
def c2Net : List HttpResult := [.fail "Couldn't connect to server"]

/-- The runtime error the failed POST raises. -/
def c2Err : VError :=
  .runtimeError ("POST to " ++ statementUri ++ " failed: Couldn't connect to server")

/-- The signature refuting C6: return type json, no json input. -/
def c6Signature : FunctionSignature :=
  ⟨[.mk "integer" .nil], .mk "json" .nil⟩

/-- The plan refuting C8: a top-level projection expression of an
unhandled kind over a compilable source. -/
def c8Plan : PlanNode :=
  .project ["p0"] [.lambda .BIGINT] (.values "1" [("c0", VType.INTEGER)])

/-- The concrete Project plan for the C8 amended witness: second
projection is of an unhandled kind. -/
def c8WitnessPlan : PlanNode :=
  .project ["a", "b"] [.fieldAccess "c0" .INTEGER, .lambda .BIGINT]
    (.values "1" [("c0", VType.INTEGER)])

/-- The plan refuting C9: a RowNumber node declaring `rn` as its
row-number output column name. -/
def c9Plan : PlanNode :=
  .rowNumber [] (some "rn") (.values "1" [("c0", VType.INTEGER)])

/-- The trace a successfully polled response chain produces: each
response's page decodes, with the GET of its `nextUri` between consecutive
responses. -/
def chainLog : List ServerResponse → List Event
  | [] => []
  | [r] => decodeEvents r
  | r :: rest => decodeEvents r ++ (Event.get (r.nextUri.getD "") :: chainLog rest)

/-- The trace produced by the error-free prefix of a chain that ends in an
`error`-bearing response: each prefix response's page decodes and the GET
of its `nextUri` (the last of which retrieves the failing response). -/
def errChainLog : List ServerResponse → List Event
  | [] => []
  | r :: rest => decodeEvents r ++ (Event.get (r.nextUri.getD "") :: errChainLog rest)

/-- The scripted chain for the C3 witness: two continuing responses, then
a final one; three pages in total. -/
def c3Mids : List ServerResponse :=
  [⟨"q", none, some "u1", [("c0", "integer")], some ["p1"]⟩,
   ⟨"q", none, some "u2", [("c0", "integer")], none⟩]

/-- The final response of the C3 witness chain. -/
def c3Final : ServerResponse :=
  ⟨"q", none, none, [("c0", "integer")], some ["p2", "p3"]⟩

/-- The error-free prefix for the C4 witness. -/
def c4Pre : List ServerResponse :=
  [⟨"q", none, some "u1", [("c0", "integer")], some ["p1"]⟩]

/-- The error-bearing response for the C4 witness; it carries `binaryData`
and a `nextUri` that must never be used. -/
def c4Bad : ServerResponse :=
  ⟨"q", some ⟨7, "division by zero"⟩, some "u2", [("c0", "integer")], some ["p2"]⟩

/-- Claim C5: `isConstantExprSupported` returns false for every constant
expression of timestamp, JSON, IP-address, IP-prefix or UUID type, and true
for every constant expression of INTEGER, VARCHAR or DOUBLE type. -/
theorem c5_constant_type_support : ∀ value : String,
    isConstantExprSupported (.constant .TIMESTAMP value) = false ∧
    isConstantExprSupported (.constant .JSON value) = false ∧
    isConstantExprSupported (.constant .IPADDRESS value) = false ∧
    isConstantExprSupported (.constant .IPPREFIXT value) = false ∧
    isConstantExprSupported (.constant .UUID value) = false ∧
    isConstantExprSupported (.constant .INTEGER value) = true ∧
    isConstantExprSupported (.constant .VARCHAR value) = true ∧
    isConstantExprSupported (.constant .DOUBLE value) = true := by
  intro value
  exact ⟨rfl, rfl, rfl, rfl, rfl, rfl, rfl, rfl⟩

/-- Claim C7: passing `toSql` a plan node of a kind outside the ten handled
kinds hits the fall-through `VELOX_NYI()` (line 216), an uncaught runtime
invariant failure; the result is `.error nyiError`, which in particular
is not the unsupported outcome `.ok none`. -/
theorem c7_unhandled_kind_is_fatal_nyi :
    ∀ (isSupportedDwrfType : RowTypeM → Bool) (windowFrames : FrameMap)
      (kind : String) (rt : RowTypeM),
    toSql isSupportedDwrfType windowFrames (.unhandled kind rt) = .error nyiError := by
  intro d w k rt
  rfl

/-- Claim C1: when the compiler yields the unsupported outcome,
`executeAndReturnVector` returns `(none, kReferenceQueryUnsupported)`, the
scripted transport results are untouched (no HTTP request was issued) and
the event trace is empty (no table materialization happened). -/
theorem c1_unsupported_plan_no_effects
    (isSupportedDwrfType : RowTypeM → Bool) (windowFrames : FrameMap)
    (plan : PlanNode) (net : List HttpResult)
    (h : toSql isSupportedDwrfType windowFrames plan = .ok none) :
    executeAndReturnVector isSupportedDwrfType windowFrames plan net =
      (.ok (none, .kReferenceQueryUnsupported), net, ([] : List Event)) := by
  unfold executeAndReturnVector
  rw [h]

/-- Witness for C1 at a concrete unsupported plan. -/
theorem c1_witness :
    toSql (fun _ => false) [] c1Plan = .ok none ∧
    executeAndReturnVector (fun _ => false) [] c1Plan [] =
      (.ok (none, .kReferenceQueryUnsupported), [], ([] : List Event)) :=
  ⟨rfl, c1_unsupported_plan_no_effects _ _ _ _ rfl⟩

/-- On a compilable plan, `executeAndReturnVector` is the catch-classified
body result. -/
theorem executeAndReturnVector_on_compiled
    (isSupportedDwrfType : RowTypeM → Bool) (windowFrames : FrameMap)
    (plan : PlanNode) (net : List HttpResult) (sql : String)
    (hsql : toSql isSupportedDwrfType windowFrames plan = .ok (some sql)) :
    executeAndReturnVector isSupportedDwrfType windowFrames plan net =
      match runBody plan sql net with
      | (.ok vecs, net, log) => (.ok (some vecs, .kSuccess), net, log)
      | (.error e, net, log) =>
          if isConnectErr e then (.error e, net, log)
          else (.ok (none, .kReferenceQueryFail), net, log) := by
  unfold executeAndReturnVector
  rw [hsql]

/-- Claim C2: on a compilable plan whose try-block body (materialization
plus execution) raises an exception, the exception is re-raised unchanged
exactly when it is a runtime error whose message shows the engine endpoint
is unreachable; every other exception is caught and the call returns
`(none, kReferenceQueryFail)`. -/
theorem c2_exception_classification
    (isSupportedDwrfType : RowTypeM → Bool) (windowFrames : FrameMap)
    (plan : PlanNode) (net : List HttpResult) (sql : String) (e : VError)
    (hsql : toSql isSupportedDwrfType windowFrames plan = .ok (some sql))
    (hbody : (runBody plan sql net).1 = .error e) :
    (isConnectErr e = true →
      (executeAndReturnVector isSupportedDwrfType windowFrames plan net).1 = .error e) ∧
    (isConnectErr e = false →
      (executeAndReturnVector isSupportedDwrfType windowFrames plan net).1 =
        .ok (none, .kReferenceQueryFail)) := by
  rcases h : runBody plan sql net with ⟨res, net', log'⟩
  rw [h] at hbody
  simp only at hbody
  subst hbody
  rw [executeAndReturnVector_on_compiled isSupportedDwrfType windowFrames plan net sql hsql, h]
  constructor
  · intro hc
    simp [hc]
  · intro hc
    simp [hc]

/-- Witness for C2: the connection failure raised while materializing the
input table is re-raised unchanged. -/
theorem c2_witness :
    (executeAndReturnVector (fun _ => true) [] c2Plan c2Net).1 = .error c2Err :=
  (c2_exception_classification (fun _ => true) [] c2Plan c2Net "t_1" c2Err rfl rfl).1 rfl

/-- Claim C10: `execute(plan)` refines `executeAndReturnVector(plan)`
pointwise: identical error/exception outcome and error code, with the
vector result materialized into a row multiset exactly when present. -/
theorem c10_execute_refines_execute_and_return_vector
    (isSupportedDwrfType : RowTypeM → Bool) (windowFrames : FrameMap)
    (plan : PlanNode) (net : List HttpResult) :
    (executePlan isSupportedDwrfType windowFrames plan net).1 =
      (executeAndReturnVector isSupportedDwrfType windowFrames plan net).1.map
        (fun rc => (rc.1.map materialize, rc.2)) ∧
    (executePlan isSupportedDwrfType windowFrames plan net).2 =
      (executeAndReturnVector isSupportedDwrfType windowFrames plan net).2 := by
  unfold executePlan
  rcases h : executeAndReturnVector isSupportedDwrfType windowFrames plan net with
    ⟨res, net', log'⟩
  rcases res with e | ⟨opt, code⟩
  · exact ⟨rfl, rfl⟩
  · rcases opt with _ | vecs
    · exact ⟨rfl, rfl⟩
    · exact ⟨rfl, rfl⟩

/-- Claim C6 counterexample: `json` is one of the disallowed type names and
it matches the signature's return type, yet `isSupported` returns true,
because the source checks json/ipaddress/ipprefix/uuid with
`usesInputTypeName`, which ignores the return type. -/
theorem c6_counterexample :
    typeSigUses "json" (TypeSig.mk "json" .nil) = true ∧
    usesTypeName c6Signature "json" = true ∧
    isSupported c6Signature = true := by
  refine ⟨by decide, by decide, by decide⟩

/-- Characterizes `typeSigListUses` as an existential over the list. -/
theorem typeSigListUses_iff (n : String) (l : List TypeSig) :
    typeSigListUses n l = true ↔ ∃ t ∈ l, typeSigUses n t = true := by
  induction l with
  | nil => simp [typeSigListUses]
  | cons t ts ih => simp [typeSigListUses, Bool.or_eq_true, ih]

/-- Claim C6, amended: `isSupported` rejects bingtile, interval year to
month, hugeint, hyperloglog and tdigest when they appear among the input
types or in the return type, but rejects json, ipaddress, ipprefix and
uuid only when they appear among the input types; the return type is not
examined for those four names. -/
theorem c6_amended_return_checked_for_five_names_only (s : FunctionSignature) :
    isSupported s = false ↔
      ((∃ n ∈ ["bingtile", "interval year to month", "hugeint", "hyperloglog", "tdigest"],
          (∃ t ∈ s.argumentTypes, typeSigUses n t = true) ∨
            typeSigUses n s.returnType = true) ∨
       (∃ n ∈ ["json", "ipaddress", "ipprefix", "uuid"],
          ∃ t ∈ s.argumentTypes, typeSigUses n t = true)) := by
  simp only [isSupported, usesTypeName, usesInputTypeName, Bool.not_eq_false',
    Bool.or_eq_true, typeSigListUses_iff, List.mem_cons, List.mem_singleton,
    exists_eq_or_imp, exists_eq_left, List.not_mem_nil, false_or, or_false,
    exists_false, or_assoc]

mutual

/-- Every failure of the nested expression compiler is the
not-implemented failure. -/
theorem exprSql_error_eq_nyi : ∀ (e : TypedExpr) (err : VError),
    exprSql e = .error err → err = nyiError
  | .fieldAccess _ _, _, h => by simp [exprSql] at h
  | .call n inputs ty, err, h => by
      simp only [exprSql] at h
      cases hl : exprListSql inputs with
      | error e2 =>
          rw [hl] at h
          injection h with h2
          exact h2.symm.trans (exprListSql_error_eq_nyi inputs e2 hl)
      | ok args => rw [hl] at h; simp at h
  | .cast input ty, err, h => by
      simp only [exprSql] at h
      cases hi : exprSql input with
      | error e2 =>
          rw [hi] at h
          injection h with h2
          exact h2.symm.trans (exprSql_error_eq_nyi input e2 hi)
      | ok s => rw [hi] at h; simp at h
  | .concat inputs ty, err, h => by
      simp only [exprSql] at h
      cases hl : exprListSql inputs with
      | error e2 =>
          rw [hl] at h
          injection h with h2
          exact h2.symm.trans (exprListSql_error_eq_nyi inputs e2 hl)
      | ok args => rw [hl] at h; simp at h
  | .constant ty v, _, h => by simp [exprSql] at h
  | .lambda ty, err, h => by
      simp only [exprSql] at h
      injection h with h2
      exact h2.symm

/-- Every failure of `exprListSql` is the not-implemented failure. -/
theorem exprListSql_error_eq_nyi : ∀ (l : List TypedExpr) (err : VError),
    exprListSql l = .error err → err = nyiError
  | [], _, h => by simp [exprListSql] at h
  | e :: es, err, h => by
      simp only [exprListSql] at h
      cases he : exprSql e with
      | error e2 =>
          rw [he] at h
          injection h with h2
          exact h2.symm.trans (exprSql_error_eq_nyi e e2 he)
      | ok s =>
          rw [he] at h
          cases hes : exprListSql es with
          | error e3 =>
              rw [hes] at h
              injection h with h3
              exact h3.symm.trans (exprListSql_error_eq_nyi es e3 hes)
          | ok ss => rw [hes] at h; simp at h

end

/-- Every failure of the projection dispatch is the not-implemented
failure. -/
theorem projectionSql_error_eq_nyi (e : TypedExpr) (err : VError)
    (h : projectionSql e = .error err) : err = nyiError := by
  cases e with
  | fieldAccess n ty => simp [projectionSql] at h
  | call n inputs ty => exact exprSql_error_eq_nyi _ _ h
  | cast input ty => exact exprSql_error_eq_nyi _ _ h
  | concat inputs ty => exact exprSql_error_eq_nyi _ _ h
  | constant ty v => simp [projectionSql] at h
  | lambda ty =>
      simp only [projectionSql] at h
      injection h with h2
      exact h2.symm

/-- An unhandled projection kind hits the `VELOX_NYI()` arm. -/
theorem projectionSql_unhandled (e : TypedExpr)
    (h : isProjectionKindHandled e = false) : projectionSql e = .error nyiError := by
  cases e <;> simp_all [isProjectionKindHandled, projectionSql]

/-- The projection loop fails with the not-implemented failure whenever
some projection in it is of an unhandled kind. -/
theorem projectListSql_error_of_unhandled :
    ∀ (pairs : List (String × TypedExpr)) (p : TypedExpr),
      p ∈ pairs.map Prod.snd → isProjectionKindHandled p = false →
      projectListSql pairs = .error nyiError := by
  intro pairs
  induction pairs with
  | nil => intro p hp _; simp at hp
  | cons hd tl ih =>
      intro p hp hu
      rcases hd with ⟨n, e⟩
      rcases List.mem_cons.mp hp with h1 | h2
      · subst h1
        simp [projectListSql, projectionSql_unhandled p hu]
      · simp only [projectListSql]
        cases he : projectionSql e with
        | error err => rw [projectionSql_error_eq_nyi e err he]
        | ok s => rw [ih p h2 hu]

/-- Claim C8 counterexample: a projection expression outside the five
handled kinds makes `toSql` throw the fatal `VELOX_NYI()` (line 362), not
return the unsupported outcome `.ok none`. -/
theorem c8_counterexample :
    isProjectionKindHandled (TypedExpr.lambda .BIGINT) = false ∧
    toSql (fun _ => true) [] c8Plan = .error nyiError :=
  ⟨rfl, rfl⟩

/-- Claim C8, amended: when the source subtree compiles to SQL, a
top-level projection expression outside the five handled kinds makes
`toSql` throw the fatal not-implemented failure (`VELOX_NYI()`, line 362)
instead of returning the unsupported outcome.  (The lengths hypothesis is
the plan-IR invariant that a Project node has one output name per
projection.) -/
theorem c8_amended_unhandled_projection_is_fatal
    (isSupportedDwrfType : RowTypeM → Bool) (windowFrames : FrameMap)
    (names : List String) (projections : List TypedExpr) (source : PlanNode)
    (sourceSql : String) (p : TypedExpr)
    (hsrc : toSql isSupportedDwrfType windowFrames source = .ok (some sourceSql))
    (hlen : names.length = projections.length)
    (hp : p ∈ projections) (hu : isProjectionKindHandled p = false) :
    toSql isSupportedDwrfType windowFrames (.project names projections source) =
      .error nyiError := by
  have hzip : (names.zip projections).map Prod.snd = projections :=
    List.map_snd_zip names projections (le_of_eq hlen.symm)
  have hfail := projectListSql_error_of_unhandled (names.zip projections) p
    (by rw [hzip]; exact hp) hu
  simp only [toSql, hsrc, hfail]

/-- Witness for the amended C8 at a concrete plan. -/
theorem c8_amended_witness :
    toSql (fun _ => true) [] c8WitnessPlan = .error nyiError :=
  c8_amended_unhandled_projection_is_fatal (fun _ => true) []
    ["a", "b"] [.fieldAccess "c0" .INTEGER, .lambda .BIGINT]
    (.values "1" [("c0", VType.INTEGER)]) "t_1" (.lambda .BIGINT)
    rfl rfl (List.Mem.tail _ (List.Mem.head _)) rfl

/-- Claim C9 counterexample: the plan's output type declares the generated
row-number column as `rn`, but the emitted SQL aliases it with the
hard-coded name `row_number` (line 503); the declared name appears nowhere
in the SQL. -/
theorem c9_counterexample :
    ((outputTypeOf c9Plan).map Prod.fst).getLast? = some "rn" ∧
    toSql (fun _ => true) [] c9Plan =
      .ok (some "SELECT c0, row_number() OVER () as row_number FROM t_1") ∧
    strContains "SELECT c0, row_number() OVER () as row_number FROM t_1" "rn" = false := by
  refine ⟨rfl, rfl, by decide⟩

/-- Strings with equal character data are equal. -/
theorem strDataInj {a b : String} (h : a.data = b.data) : a = b := by
  cases a; cases b; exact congrArg String.mk h

/-- Appending strings appends their character data. -/
theorem strDataAppend (a b : String) : (a ++ b).data = a.data ++ b.data := rfl

/-- Claim C9, amended: for every supported TopNRowNumber node that
generates its row-number column, the emitted SQL aliases that column with
exactly the name the node's output type declares for it (its last column
name); every supported RowNumber node instead has its row-number column
aliased with the literal name `row_number` in the emitted SQL, whatever
declared column name `rnDecl` it carries.  Universal over the node's
partition keys, sorting keys and orders, limit, declared name, source
subtree, DWRF-type gate and window-frame context; the hypotheses say the
node is supported: the gate accepts the source's row type and the source
subtree compiles to SQL. -/
theorem c9_amended_alias_behavior
    (isSupportedDwrfType : RowTypeM → Bool) (windowFrames : FrameMap)
    (pk sk so : List String) (n : String) (rnDecl : Option String) (lim : Nat)
    (source : PlanNode) (sourceSql : String)
    (hgate : isSupportedDwrfType (outputTypeOf source) = true)
    (hsrc : toSql isSupportedDwrfType windowFrames source = .ok (some sourceSql)) :
    (toSql isSupportedDwrfType windowFrames
        (.topNRowNumber pk sk so (some n) lim source) =
      .ok (some ("SELECT * FROM (SELECT " ++
        joinComma ((outputTypeOf source).map Prod.fst) ++
        ", row_number() OVER (" ++
        (if pk.isEmpty then "" else "partition by " ++ joinComma pk) ++
        (if sk.isEmpty then ""
         else " ORDER BY " ++
           joinComma ((sk.zip so).map fun p => p.1 ++ " " ++ p.2)) ++
        ") as " ++ n ++ " FROM " ++ sourceSql ++ ")  where " ++
        n ++ " <= " ++ Nat.repr lim)) ∧
     ((outputTypeOf (.topNRowNumber pk sk so (some n) lim source)).map
        Prod.fst).getLast? = some n) ∧
    toSql isSupportedDwrfType windowFrames (.rowNumber pk rnDecl source) =
      .ok (some ("SELECT " ++ joinComma ((outputTypeOf source).map Prod.fst) ++
        ", row_number() OVER (" ++
        (if pk.isEmpty then "" else "partition by " ++ joinComma pk) ++
        ") as row_number FROM " ++ sourceSql)) := by
  have halias :
      ((((outputTypeOf (PlanNode.topNRowNumber pk sk so (some n) lim source)).map
          Prod.fst).getLast?).getD "") = n := by
    simp [outputTypeOf]
  refine ⟨⟨?_, by simp [outputTypeOf]⟩, ?_⟩
  · simp only [toSql, hgate, Bool.not_true, Bool.false_eq_true, if_false, hsrc, halias]
  · simp only [toSql, hgate, Bool.not_true, Bool.false_eq_true, if_false, hsrc]

/-- Witness for the amended C9 at a concrete TopNRowNumber and RowNumber
node: the TopNRowNumber SQL aliases the column with the declared name
`rn2`, the RowNumber SQL with the literal `row_number` despite declaring
`rn3`. -/
theorem c9_amended_witness :
    toSql (fun _ => true) []
        (.topNRowNumber [] ["s0"] ["ASC"] (some "rn2") 10
          (.values "1" [("c0", VType.INTEGER)])) =
      .ok (some ("SELECT * FROM (SELECT c0, row_number() OVER " ++
        "( ORDER BY s0 ASC) as rn2 FROM t_1)  where rn2 <= 10")) ∧
    toSql (fun _ => true) []
        (.rowNumber [] (some "rn3") (.values "1" [("c0", VType.INTEGER)])) =
      .ok (some "SELECT c0, row_number() OVER () as row_number FROM t_1") := by
  have h := c9_amended_alias_behavior (fun _ => true) [] [] ["s0"] ["ASC"] "rn2"
    (some "rn3") 10 (.values "1" [("c0", VType.INTEGER)]) "t_1" rfl rfl
  exact ⟨h.1.1, h.2⟩

theorem countGets_append (a b : List Event) :
    countGets (a ++ b) = countGets a + countGets b := by
  simp [countGets, List.filter_append]

theorem countDecodes_append (a b : List Event) :
    countDecodes (a ++ b) = countDecodes a + countDecodes b := by
  simp [countDecodes, List.filter_append]

theorem countGets_map_decode (datas : List String) :
    countGets (datas.map Event.decode) = 0 := by
  induction datas with
  | nil => rfl
  | cons d ds ih => simp [countGets, isGetEvent]

theorem countDecodes_map_decode (datas : List String) :
    countDecodes (datas.map Event.decode) = datas.length := by
  induction datas with
  | nil => rfl
  | cons d ds ih => simpa [countDecodes, isDecodeEvent] using ih

theorem countGets_decodeEvents (r : ServerResponse) :
    countGets (decodeEvents r) = 0 := by
  cases h : r.binaryData with
  | none => simp [decodeEvents, h, countGets]
  | some datas => simp [decodeEvents, h, countGets_map_decode]

theorem countDecodes_decodeEvents (r : ServerResponse) :
    countDecodes (decodeEvents r) = (r.binaryData.getD []).length := by
  cases h : r.binaryData with
  | none => simp [decodeEvents, h, countDecodes]
  | some datas => simp [decodeEvents, h, countDecodes_map_decode]

/-- Gets in a successfully polled chain: one per response except the
last. -/
theorem countGets_chainLog : ∀ ch : List ServerResponse,
    countGets (chainLog ch) = ch.length - 1
  | [] => by simp [chainLog, countGets]
  | [r] => by simp [chainLog, countGets_decodeEvents]
  | r :: r2 :: rest => by
      have ih := countGets_chainLog (r2 :: rest)
      simp only [chainLog, countGets_append, countGets_decodeEvents] at ih ⊢
      simp only [countGets, List.filter_cons, isGetEvent] at ih ⊢
      simp at ih ⊢
      omega

/-- Gets in the error-free prefix: one per prefix response. -/
theorem countGets_errChainLog : ∀ pre : List ServerResponse,
    countGets (errChainLog pre) = pre.length
  | [] => by simp [errChainLog, countGets]
  | r :: rest => by
      have ih := countGets_errChainLog rest
      simp only [errChainLog, countGets_append, countGets_decodeEvents]
      simp only [countGets, List.filter_cons, isGetEvent] at ih ⊢
      simp at ih ⊢
      omega

/-- Decodes in the error-free prefix: exactly the prefix responses'
`binaryData` entries. -/
theorem countDecodes_errChainLog : ∀ pre : List ServerResponse,
    countDecodes (errChainLog pre) =
      (pre.map fun r => (r.binaryData.getD []).length).sum
  | [] => by simp [errChainLog, countDecodes]
  | r :: rest => by
      have ih := countDecodes_errChainLog rest
      simp only [errChainLog, countDecodes_append, countDecodes_decodeEvents]
      simp only [countDecodes, List.filter_cons, isDecodeEvent] at ih ⊢
      simp at ih ⊢
      omega

/-- The poll loop over an error-free chain whose last response has no
`nextUri`: it consumes the whole chain, accumulates every response's pages
in order, and logs the chain trace. -/
theorem pollLoop_good_chain (mids : List ServerResponse) :
    ∀ (resp finResp : ServerResponse) (acc : List RowVec) (log : List Event),
      (∀ r ∈ mids, r.error = none ∧ r.nextUri.isSome = true) →
      finResp.error = none → finResp.nextUri = none →
      resp.nextUri.isSome = true →
      pollLoop ((mids ++ [finResp]).map HttpResult.ok) resp acc log =
        (.ok (acc ++ ((resp :: (mids ++ [finResp])).map queryResults).flatten), [],
          log ++ chainLog (resp :: (mids ++ [finResp]))) := by
  induction mids with
  | nil =>
      intro resp finResp acc log _ hfe hfu hru
      obtain ⟨u, hu⟩ := Option.isSome_iff_exists.mp hru
      rw [pollLoop.eq_def]
      simp only [queryCompleted, hu, Option.isNone_some, Bool.false_eq_true, if_false,
        List.nil_append, List.map_cons, List.map_nil]
      simp only [throwIfFailed, hfe]
      rw [pollLoop.eq_def]
      simp only [queryCompleted, hfu, Option.isNone_none, if_true]
      simp [chainLog, hu, List.append_assoc]
  | cons m ms ih =>
      intro resp finResp acc log hmid hfe hfu hru
      obtain ⟨u, hu⟩ := Option.isSome_iff_exists.mp hru
      rw [pollLoop.eq_def]
      simp only [queryCompleted, hu, Option.isNone_some, Bool.false_eq_true, if_false,
        List.cons_append, List.map_cons, Option.getD_some]
      simp only [throwIfFailed, (hmid m (List.mem_cons_self m ms)).1]
      rw [ih m finResp (acc ++ queryResults resp)
        (log ++ decodeEvents resp ++ [Event.get u])
        (fun r hr => hmid r (List.mem_cons_of_mem m hr)) hfe hfu
        (hmid m (List.mem_cons_self m ms)).2]
      have hchain : chainLog (resp :: m :: (ms ++ [finResp])) =
          decodeEvents resp ++ (Event.get u :: chainLog (m :: (ms ++ [finResp]))) := by
        cases ms <;> simp [chainLog, hu]
      rw [hchain]
      simp [List.append_assoc]

/-- The poll loop over an error-free prefix followed by an error-bearing
response: it fails with the engine's error embedded in the message, leaves
everything after the failing response unconsumed, and logs only the
prefix's decodes and GETs. -/
theorem pollLoop_error_chain (pre : List ServerResponse) :
    ∀ (resp bad : ServerResponse) (rest : List HttpResult) (acc : List RowVec)
      (log : List Event) (err : PrestoError),
      (∀ r ∈ pre, r.error = none ∧ r.nextUri.isSome = true) →
      resp.nextUri.isSome = true →
      bad.error = some err →
      pollLoop (((pre ++ [bad]).map HttpResult.ok) ++ rest) resp acc log =
        (.error (.userError ("Presto query failed: " ++ toString err.errorCode ++ " " ++
            err.message)),
          rest, log ++ errChainLog (resp :: pre)) := by
  induction pre with
  | nil =>
      intro resp bad rest acc log err _ hru hbe
      obtain ⟨u, hu⟩ := Option.isSome_iff_exists.mp hru
      rw [pollLoop.eq_def]
      simp only [queryCompleted, hu, Option.isNone_some, Bool.false_eq_true, if_false,
        List.nil_append, List.map_cons, List.map_nil, List.cons_append, Option.getD_some]
      simp only [throwIfFailed, hbe]
      simp [errChainLog, hu, List.append_assoc]
  | cons p ps ih =>
      intro resp bad rest acc log err hpre hru hbe
      obtain ⟨u, hu⟩ := Option.isSome_iff_exists.mp hru
      rw [pollLoop.eq_def]
      simp only [queryCompleted, hu, Option.isNone_some, Bool.false_eq_true, if_false,
        List.cons_append, List.map_cons, Option.getD_some]
      simp only [throwIfFailed, (hpre p (List.mem_cons_self p ps)).1]
      rw [ih p bad rest (acc ++ queryResults resp)
        (log ++ decodeEvents resp ++ [Event.get u]) err
        (fun r hr => hpre r (List.mem_cons_of_mem p hr))
        (hpre p (List.mem_cons_self p ps)).2 hbe]
      simp [errChainLog, hu, List.append_assoc]

/-- Claim C3: for a scripted sequence of N `nextUri`-bearing error-free
responses followed by one final error-free response without `nextUri`, the
poll loop of `execute` terminates with every scripted response consumed,
issues exactly N continuation (GET) requests, and returns the
concatenation of the decoded `binaryData` pages of all N+1 responses in
order. -/
theorem c3_poll_loop_accumulates_all_pages
    (withUri : List ServerResponse) (finResp : ServerResponse) (sql sess : String)
    (h1 : ∀ r ∈ withUri, r.error = none ∧ r.nextUri.isSome = true)
    (h2 : finResp.error = none) (h3 : finResp.nextUri = none) :
    execute sql sess ((withUri ++ [finResp]).map HttpResult.ok) [] =
      (.ok (((withUri ++ [finResp]).map queryResults).flatten), [],
        Event.post sql sess :: chainLog (withUri ++ [finResp])) ∧
    countGets (Event.post sql sess :: chainLog (withUri ++ [finResp])) =
      withUri.length := by
  constructor
  · cases withUri with
    | nil =>
        simp only [execute, List.nil_append, List.map_cons, List.map_nil,
          List.nil_append]
        simp only [throwIfFailed, h2]
        rw [pollLoop.eq_def]
        simp [queryCompleted, h3, chainLog]
    | cons w ws =>
        simp only [execute, List.cons_append, List.map_cons, List.nil_append]
        simp only [throwIfFailed, (h1 w (List.mem_cons_self w ws)).1]
        rw [pollLoop_good_chain ws w finResp [] [Event.post sql sess]
          (fun r hr => h1 r (List.mem_cons_of_mem w hr)) h2 h3
          (h1 w (List.mem_cons_self w ws)).2]
        simp
  · have h := countGets_chainLog (withUri ++ [finResp])
    simp only [countGets, List.filter_cons, isGetEvent] at h ⊢
    simp at h ⊢
    simp [h]

/-- Witness for C3 at a concrete two-continuation chain. -/
theorem c3_witness :
    execute "SELECT 1" "" ((c3Mids ++ [c3Final]).map HttpResult.ok) [] =
      (.ok (((c3Mids ++ [c3Final]).map queryResults).flatten), [],
        Event.post "SELECT 1" "" :: chainLog (c3Mids ++ [c3Final])) ∧
    countGets (Event.post "SELECT 1" "" :: chainLog (c3Mids ++ [c3Final])) =
      c3Mids.length :=
  c3_poll_loop_accumulates_all_pages c3Mids c3Final "SELECT 1" ""
    (by decide) (by decide) (by decide)

/-- Claim C4: when the scripted sequence reaches an `error`-bearing
response after an error-free `nextUri`-bearing prefix, `execute` fails with
the engine's error code and message embedded, consumes nothing beyond the
failing response (no GET follows it), and decodes pages only from the
prefix, never from the failing response. -/
theorem c4_error_response_stops_polling
    (pre : List ServerResponse) (bad : ServerResponse) (rest : List HttpResult)
    (sql sess : String) (err : PrestoError)
    (h1 : ∀ r ∈ pre, r.error = none ∧ r.nextUri.isSome = true)
    (h2 : bad.error = some err) :
    execute sql sess (((pre ++ [bad]).map HttpResult.ok) ++ rest) [] =
      (.error (.userError ("Presto query failed: " ++ toString err.errorCode ++ " " ++
          err.message)),
        rest, Event.post sql sess :: errChainLog pre) ∧
    countGets (Event.post sql sess :: errChainLog pre) = pre.length ∧
    countDecodes (Event.post sql sess :: errChainLog pre) =
      (pre.map fun r => (r.binaryData.getD []).length).sum := by
  refine ⟨?_, ?_, ?_⟩
  · cases pre with
    | nil =>
        simp only [execute, List.nil_append, List.map_cons, List.map_nil,
          List.cons_append]
        simp [throwIfFailed, h2, errChainLog]
    | cons p ps =>
        simp only [execute, List.cons_append, List.map_cons, List.nil_append]
        simp only [throwIfFailed, (h1 p (List.mem_cons_self p ps)).1]
        rw [pollLoop_error_chain ps p bad rest [] [Event.post sql sess] err
          (fun r hr => h1 r (List.mem_cons_of_mem p hr))
          (h1 p (List.mem_cons_self p ps)).2 h2]
        simp
  · have h := countGets_errChainLog pre
    simp only [countGets, List.filter_cons, isGetEvent] at h ⊢
    simp at h ⊢
    simp [h]
  · have h := countDecodes_errChainLog pre
    simp only [countDecodes, List.filter_cons, isDecodeEvent] at h ⊢
    simp at h ⊢
    simp [h]

/-- Witness for C4 at a concrete one-prefix chain with an unread trailing
response. -/
theorem c4_witness :
    execute "SELECT 1" "" (((c4Pre ++ [c4Bad]).map HttpResult.ok) ++
        [HttpResult.fail "unreached"]) [] =
      (.error (.userError ("Presto query failed: " ++ toString (7 : Int) ++ " " ++
          "division by zero")),
        [HttpResult.fail "unreached"], Event.post "SELECT 1" "" :: errChainLog c4Pre) ∧
    countGets (Event.post "SELECT 1" "" :: errChainLog c4Pre) = c4Pre.length ∧
    countDecodes (Event.post "SELECT 1" "" :: errChainLog c4Pre) =
      (c4Pre.map fun r => (r.binaryData.getD []).length).sum :=
  c4_error_response_stops_polling c4Pre c4Bad [HttpResult.fail "unreached"]
    "SELECT 1" "" ⟨7, "division by zero"⟩ (by decide) (by decide)

end PrestoQueryRunner
